import Mathlib

/-!
Verification of the decktape-server conversion handler.

The repository has two source files, `src/server.js` and `src/unnamed/part_000`,
each an Express application with a `POST /convert` handler.  The two handlers
differ only in middleware (CORS/logging, outside the modelled core) and in two
fixed `--key=...` renderer arguments.  This file gives a shallow embedding of
the handler: JavaScript values with their truthiness, the argument-vector
construction, and the request lifecycle (validation, staging, spawning the
renderer, exit handling, response, cleanup) as a pure function from the request
body and an environment of I/O outcomes to an execution record.

Machine-level conventions of the embedding:
* JS numbers are modelled as `Int` (the program only passes small integers such
  as `pause` values and process exit codes through template strings).
* `process.env.X` is `Option String` (`none` = unset).  The JS idiom `x || d`
  on strings falls back on `""` as well as on `undefined`, which `envOr` mirrors.
* `path.join a b` for the plain relative names used here is `a ++ "/" ++ b`.
* A child process outcome is either a failed spawn (the `'error'` event fires,
  and per the Node child_process documentation the `'close'` event still fires
  afterwards, with a `null` exit code) or an exit with an `Option Int` code
  (`none` = `null`, i.e. killed by signal) and the accumulated stream buffers.
-/

/-- JavaScript/JSON values, as far as the handler inspects them.  `undef` is
the result of reading an absent object property. -/
inductive JsVal where
  | undef
  | nullv
  | boolv (b : Bool)
  | num (n : Int)
  | str (s : String)
  | arr (elems : List JsVal)
deriving Repr

/-- Presence test for an object property: reading an absent key yields
`undefined`, so a property is present exactly when its value is not `undef`. -/
def JsVal.isUndef : JsVal → Bool
  | .undef => true
  | _ => false

/-- JavaScript truthiness: `undefined`, `null`, `false`, `0` and `""` are
falsy; every object (hence every array) is truthy. -/
def JsVal.truthy : JsVal → Bool
  | .undef => false
  | .nullv => false
  | .boolv b => b
  | .num n => n != 0
  | .str s => s != ""
  | .arr _ => true

mutual

/-- Coercion to string as performed by a template literal. -/
def JsVal.toStr : JsVal → String
  | .undef => "undefined"
  | .nullv => "null"
  | .boolv b => if b then "true" else "false"
  | .num n => toString n
  | .str s => s
  | .arr elems => String.intercalate "," (JsVal.toStrList elems)

def JsVal.toStrList : List JsVal → List String
  | [] => []
  | v :: vs => v.toStr :: JsVal.toStrList vs

end

/-- The `options` object of a request body.  Reading an absent property yields
`undef`, so absence of a key is represented by the field being `.undef`. -/
structure ConvOptions where
  size : JsVal := .undef
  pause : JsVal := .undef
deriving Repr

/-- The parsed JSON request body.  `const { html, options = {} } = req.body`
defaults `options` to `{}` when the property is absent, which the `.undef`
field defaults of `ConvOptions` capture. -/
structure ReqBody where
  html : JsVal := .undef
  options : ConvOptions := {}
deriving Repr

/-- The JS idiom `x || d` for an environment variable `x`: both an unset
variable (`undefined`) and the empty string are falsy and select the default. -/
def envOr (x : Option String) (d : String) : String :=
  match x with
  | none => d
  | some s => if s = "" then d else s

/-- Process-wide configuration read from the environment at startup, plus the
module directory `__dirname` that locates the renderer entry point. -/
structure Config where
  dirName : String
  chromePathEnv : Option String := none
  chromeFlagsEnv : Option String := none
deriving Repr

/-- `process.env.CHROME_PATH || "/usr/bin/chromium-browser"` -/
def Config.chromePath (c : Config) : String :=
  envOr c.chromePathEnv "/usr/bin/chromium-browser"

/-- JS `s.split(",")` for a one-character separator: split at every comma,
keeping empty fields, so `"".split(",")` is `[""]` and `"a,,b".split(",")` is
`["a","","b"]`. -/
def splitCommaAux : List Char → List Char → List String
  | [], acc => [String.mk acc.reverse]
  | c :: cs, acc =>
      if c = ',' then String.mk acc.reverse :: splitCommaAux cs []
      else splitCommaAux cs (c :: acc)

def splitComma (s : String) : List String :=
  splitCommaAux s.data []

/-- `(process.env.CHROME_FLAGS || "--no-sandbox,--disable-gpu").split(",")` -/
def Config.chromeFlags (c : Config) : List String :=
  splitComma (envOr c.chromeFlagsEnv "--no-sandbox,--disable-gpu")

/-- `join(__dirname, "decktape.js")` -/
def Config.decktapePath (c : Config) : String :=
  c.dirName ++ "/decktape.js"

/-- `join(tmpDir, "input.html")` -/
def htmlPath (tmpDir : String) : String := tmpDir ++ "/input.html"

/-- `join(tmpDir, "output.pdf")` -/
def pdfPath (tmpDir : String) : String := tmpDir ++ "/output.pdf"

/-- The argument vector built by `src/server.js` (lines 76-88): renderer entry
point, `--chrome-path` with its value, one `--chrome-arg=<flag>` per configured
flag, the positional mode/input/output tokens, the two fixed navigation-key
tokens, and the optional `--size=`/`--pause=` tokens guarded by truthiness of
`options.size` / `options.pause`. -/
def argsServerJs (cfg : Config) (tmpDir : String) (options : ConvOptions) : List String :=
  [cfg.decktapePath, "--chrome-path", cfg.chromePath]
    ++ cfg.chromeFlags.map (fun flag => "--chrome-arg=" ++ flag)
    ++ ["generic", "file://" ++ htmlPath tmpDir, pdfPath tmpDir]
    ++ ["--key=ArrowDown", "--key=ArrowRight"]
    ++ (if options.size.truthy then ["--size=" ++ options.size.toStr] else [])
    ++ (if options.pause.truthy then ["--pause=" ++ options.pause.toStr] else [])

/-- The argument vector built by `src/unnamed/part_000` (lines 40-50): the same
as `argsServerJs` except that the two `--key=` tokens are absent. -/
def argsPart000 (cfg : Config) (tmpDir : String) (options : ConvOptions) : List String :=
  [cfg.decktapePath, "--chrome-path", cfg.chromePath]
    ++ cfg.chromeFlags.map (fun flag => "--chrome-arg=" ++ flag)
    ++ ["generic", "file://" ++ htmlPath tmpDir, pdfPath tmpDir]
    ++ (if options.size.truthy then ["--size=" ++ options.size.toStr] else [])
    ++ (if options.pause.truthy then ["--pause=" ++ options.pause.toStr] else [])

/-- Modelled from the spec (design note on the two near-duplicate handler
variants): one configurable argument builder where a boolean selects whether
the fixed navigation-key tokens are appended after the positional arguments. -/
def specUnifiedArgs (appendKeys : Bool) (cfg : Config) (tmpDir : String)
    (options : ConvOptions) : List String :=
  [cfg.decktapePath, "--chrome-path", cfg.chromePath]
    ++ cfg.chromeFlags.map (fun flag => "--chrome-arg=" ++ flag)
    ++ ["generic", "file://" ++ htmlPath tmpDir, pdfPath tmpDir]
    ++ (if appendKeys then ["--key=ArrowDown", "--key=ArrowRight"] else [])
    ++ (if options.size.truthy then ["--size=" ++ options.size.toStr] else [])
    ++ (if options.pause.truthy then ["--pause=" ++ options.pause.toStr] else [])

example :
    argsServerJs ⟨"/srv/app", none, none⟩ "/tmp/decktape-x" ⟨.str "A4", .num 2⟩ =
      ["/srv/app/decktape.js", "--chrome-path", "/usr/bin/chromium-browser",
       "--chrome-arg=--no-sandbox", "--chrome-arg=--disable-gpu",
       "generic", "file:///tmp/decktape-x/input.html", "/tmp/decktape-x/output.pdf",
       "--key=ArrowDown", "--key=ArrowRight", "--size=A4", "--pause=2"] := by
  decide

/-!
## The request lifecycle

`handleConvert` is a symbolic execution of the `POST /convert` handler body
(`src/server.js` lines 53-169, `src/unnamed/part_000` lines 17-131; the two
differ only in the argument vector).  The outcomes of the four asynchronous
I/O operations the handler performs are supplied by an `FsEnv`; the function
returns a record of everything externally observable: the response (if any),
filesystem and process side effects, the cleanup attempt, and an event trace
in the order the source performs the operations.

A central fact about the source drives several results below: the rejection
handler `.catch((error) => { ... res.status(500).json({ error, details,
stdout, stderr }) ... })` (src/server.js lines 146-154) references `stdout`
and `stderr` as shorthand object properties, but those two variables are
declared with `let` *inside* the promise executor function (lines 95-96).
The `.catch` callback is a sibling of the executor, not nested in it, so its
scope chain (the `app.post` callback body, then module scope) has no binding
for either name.  Both files are ES modules, hence strict mode: evaluating
the object literal throws a `ReferenceError` after `res.status(500)` has run
and before `.json` is called, so no response is sent on any rejection path
and the rejection escapes the handler (the `return promise` inside `try` is
not awaited there, so the outer `catch` never sees it).  The record flag
`refErrorThrown` marks executions that reach this point.
-/

/-- Outcome of `spawn("node", args)`.  `startError`: the process could not be
started, the `'error'` event fires with the launch failure message and — per
the Node child_process documentation ("The 'close' event will always emit
after 'exit' was already emitted, or 'error' if the child failed to spawn") —
the `'close'` event then fires with a `null` exit code.  `exited`: the process
ran and closed with the given exit code (`none` = `null`) after the two stream
buffers accumulated the given text. -/
inductive SpawnOutcome where
  | startError (errMsg : String)
  | exited (code : Option Int) (stdoutBuf stderrBuf : String)
deriving Repr

/-- Outcomes of the asynchronous filesystem operations of one request.
`mkdtempResult`: the unique temporary directory path, or the thrown error
message; `writeFileResult` likewise for staging `input.html`;
`readFileResult`: the bytes of `output.pdf`, or the thrown error message. -/
structure FsEnv where
  mkdtempResult : Except String String
  writeFileResult : Except String Unit
  spawnOutcome : SpawnOutcome
  readFileResult : Except String (List Nat)
deriving Repr

/-- The response the handler hands to Express, when it completes one. -/
inductive Response where
  | badRequest (errorMsg : String)
  | pdf (contentType contentDisposition : String) (body : List Nat)
  | serverError (errorMsg details : String)
deriving Repr

/-- Operations of one request, in the order the handler performs them. -/
inductive Ev where
  | validateEv
  | mkdtempEv
  | writeFileEv
  | spawnEv
  | errorEv
  | closeEv
  | readFileEv
  | respondEv
  | cleanupEv
  | catchEv
deriving Repr, DecidableEq

/-- Everything externally observable about one execution of the handler. -/
structure HandlerResult where
  response : Option Response := none
  statusSet : Option Nat := none
  dirCreated : Option String := none
  fileWritten : Bool := false
  stagedContent : Option JsVal := none
  spawnedArgs : Option (List String) := none
  rejectedError : Option String := none
  cleanedUp : Bool := false
  refErrorThrown : Bool := false
  trace : List Ev := []
deriving Repr

/-- Symbolic execution of the `POST /convert` handler.  `variant = true` is
`src/server.js` (navigation-key tokens), `variant = false` is
`src/unnamed/part_000`.  Branches, in source order:

* `if (!html) return res.status(400).json(...)` — truthiness test, no side
  effects before it.
* `fs.mkdtemp` throws → outer `catch`: 500 JSON `{error, details}`; `tmpDir`
  is still `null`, so no cleanup runs.
* `fs.writeFile` throws → outer `catch`: 500 JSON, then cleanup of `tmpDir`.
* spawn fails to start → `'error'` rejects with the launch message; `'close'`
  then fires with code `null`, whose `!== 0` branch re-rejects (a no-op) and
  whose `finally` cleans up; the `.catch` callback throws `ReferenceError`.
* exit code `!== 0` (including `null`) → reject with
  `Decktape failed: ${stderr || stdout}`; `finally` cleans up; `.catch`
  throws `ReferenceError`.
* exit code 0, `fs.readFile` throws → `catch` rejects with the read error;
  `finally` cleans up; `.catch` throws `ReferenceError`.
* exit code 0, read succeeds → set the two headers, send the bytes, resolve;
  `finally` cleans up. -/
def handleConvert (variant : Bool) (cfg : Config) (body : ReqBody) (env : FsEnv) :
    HandlerResult :=
  if body.html.truthy = false then
    { response := some (.badRequest "HTML content is required"),
      statusSet := some 400,
      trace := [.validateEv, .respondEv] }
  else
    match env.mkdtempResult with
    | .error e =>
        { response := some (.serverError "PDF conversion failed" e),
          statusSet := some 500,
          trace := [.validateEv, .mkdtempEv, .respondEv] }
    | .ok tmpDir =>
        match env.writeFileResult with
        | .error e =>
            { response := some (.serverError "PDF conversion failed" e),
              statusSet := some 500,
              dirCreated := some tmpDir,
              cleanedUp := true,
              trace := [.validateEv, .mkdtempEv, .writeFileEv, .respondEv, .cleanupEv] }
        | .ok () =>
            let args :=
              if variant then argsServerJs cfg tmpDir body.options
              else argsPart000 cfg tmpDir body.options
            match env.spawnOutcome with
            | .startError msg =>
                { statusSet := some 500,
                  dirCreated := some tmpDir,
                  fileWritten := true,
                  stagedContent := some body.html,
                  spawnedArgs := some args,
                  rejectedError := some msg,
                  cleanedUp := true,
                  refErrorThrown := true,
                  trace := [.validateEv, .mkdtempEv, .writeFileEv, .spawnEv,
                            .errorEv, .closeEv, .cleanupEv, .catchEv] }
            | .exited code outBuf errBuf =>
                if code ≠ some 0 then
                  { statusSet := some 500,
                    dirCreated := some tmpDir,
                    fileWritten := true,
                    stagedContent := some body.html,
                    spawnedArgs := some args,
                    rejectedError :=
                      some ("Decktape failed: " ++ (if errBuf ≠ "" then errBuf else outBuf)),
                    cleanedUp := true,
                    refErrorThrown := true,
                    trace := [.validateEv, .mkdtempEv, .writeFileEv, .spawnEv,
                              .closeEv, .cleanupEv, .catchEv] }
                else
                  match env.readFileResult with
                  | .error e =>
                      { statusSet := some 500,
                        dirCreated := some tmpDir,
                        fileWritten := true,
                        stagedContent := some body.html,
                        spawnedArgs := some args,
                        rejectedError := some e,
                        cleanedUp := true,
                        refErrorThrown := true,
                        trace := [.validateEv, .mkdtempEv, .writeFileEv, .spawnEv,
                                  .closeEv, .readFileEv, .cleanupEv, .catchEv] }
                  | .ok bytes =>
                      { response := some (.pdf "application/pdf"
                          "attachment; filename=presentation.pdf" bytes),
                        dirCreated := some tmpDir,
                        fileWritten := true,
                        stagedContent := some body.html,
                        spawnedArgs := some args,
                        cleanedUp := true,
                        trace := [.validateEv, .mkdtempEv, .writeFileEv, .spawnEv,
                                  .closeEv, .readFileEv, .respondEv, .cleanupEv] }

/-!
## Helper lemmas about token lists
-/

lemma take_len_append {α : Type} (l₁ l₂ : List α) : (l₁ ++ l₂).take l₁.length = l₁ := by
  induction l₁ with
  | nil => rfl
  | cons a t ih =>
      show a :: (t ++ l₂).take t.length = a :: t
      rw [ih]

lemma take_le_append {α : Type} (n : Nat) (l₁ l₂ : List α) (h : n ≤ l₁.length) :
    (l₁ ++ l₂).take n = l₁.take n := by
  induction l₁ generalizing n with
  | nil =>
      have : n = 0 := Nat.le_zero.mp h
      subst this
      rfl
  | cons a t ih =>
      cases n with
      | zero => rfl
      | succ m =>
          show a :: (t ++ l₂).take m = a :: t.take m
          rw [ih m (Nat.le_of_succ_le_succ h)]

/-- No element of `l` starts with the marker string `p` (stated on character
data so that it is decidable by evaluation for concrete lists). -/
def noTokenHeaded (p : String) (l : List String) : Prop :=
  ∀ c ∈ l, c.data.take p.data.length ≠ p.data

instance (p : String) (l : List String) : Decidable (noTokenHeaded p l) :=
  List.decidableBAll _ l

lemma headed_not_mem (p s : String) (l : List String) (h : noTokenHeaded p l) :
    (p ++ s) ∉ l := by
  intro hm
  apply h _ hm
  rw [String.data_append]
  exact take_len_append _ _

lemma append_ne_append (p q s t : String) (hlen : p.data.length ≤ q.data.length)
    (hne : q.data.take p.data.length ≠ p.data) : p ++ s ≠ q ++ t := by
  intro he
  apply hne
  have hd : p.data ++ s.data = q.data ++ t.data := by
    have h2 := congrArg String.data he
    rwa [String.data_append, String.data_append] at h2
  rw [← take_le_append p.data.length q.data t.data hlen, ← hd, take_len_append]

/-- The part of the argument vector that does not depend on `options`. -/
def convBase (appendKeys : Bool) (cfg : Config) (tmpDir : String) : List String :=
  [cfg.decktapePath, "--chrome-path", cfg.chromePath]
    ++ cfg.chromeFlags.map (fun flag => "--chrome-arg=" ++ flag)
    ++ ["generic", "file://" ++ htmlPath tmpDir, pdfPath tmpDir]
    ++ (if appendKeys then ["--key=ArrowDown", "--key=ArrowRight"] else [])

lemma specArgs_eq_base (b : Bool) (cfg : Config) (t : String) (o : ConvOptions) :
    specUnifiedArgs b cfg t o =
      convBase b cfg t
        ++ (if o.size.truthy then ["--size=" ++ o.size.toStr] else [])
        ++ (if o.pause.truthy then ["--pause=" ++ o.pause.toStr] else []) := by
  simp [specUnifiedArgs, convBase, List.append_assoc]

lemma argsServerJs_eq_spec (cfg : Config) (t : String) (o : ConvOptions) :
    argsServerJs cfg t o = specUnifiedArgs true cfg t o := by
  simp [argsServerJs, specUnifiedArgs]

lemma argsPart000_eq_spec (cfg : Config) (t : String) (o : ConvOptions) :
    argsPart000 cfg t o = specUnifiedArgs false cfg t o := by
  simp [argsPart000, specUnifiedArgs]

/-- A fixed benign configuration and temporary directory used where a claim is
settled at a concrete instance. -/
def cfg0 : Config := ⟨"/srv/app", none, none⟩

def tmpDir0 : String := "/tmp/decktape-x0"

lemma sizeTok_mem_iff (b : Bool) (o : ConvOptions) :
    ("--size=" ++ o.size.toStr) ∈ specUnifiedArgs b cfg0 tmpDir0 o ↔
      o.size.truthy = true := by
  rw [specArgs_eq_base]
  constructor
  · intro hm
    rcases List.mem_append.mp hm with hm1 | hm2
    · rcases List.mem_append.mp hm1 with hb | hsz
      · exfalso
        cases b with
        | false => exact headed_not_mem "--size=" _ _ (by decide) hb
        | true => exact headed_not_mem "--size=" _ _ (by decide) hb
      · cases hs : o.size.truthy with
        | true => rfl
        | false => simp [hs] at hsz
    · exfalso
      cases hp : o.pause.truthy with
      | false => simp [hp] at hm2
      | true =>
          simp [hp] at hm2
          exact append_ne_append "--size=" "--pause=" _ _ (by decide) (by decide) hm2
  · intro hs
    simp [hs, List.mem_append]

lemma pauseTok_mem_iff (b : Bool) (o : ConvOptions) :
    ("--pause=" ++ o.pause.toStr) ∈ specUnifiedArgs b cfg0 tmpDir0 o ↔
      o.pause.truthy = true := by
  rw [specArgs_eq_base]
  constructor
  · intro hm
    rcases List.mem_append.mp hm with hm1 | hm2
    · exfalso
      rcases List.mem_append.mp hm1 with hb | hsz
      · cases b with
        | false => exact headed_not_mem "--pause=" _ _ (by decide) hb
        | true => exact headed_not_mem "--pause=" _ _ (by decide) hb
      · cases hs : o.size.truthy with
        | false => simp [hs] at hsz
        | true =>
            simp [hs] at hsz
            exact
              (append_ne_append "--size=" "--pause=" _ _ (by decide) (by decide)).symm hsz
    · cases hp : o.pause.truthy with
      | true => rfl
      | false => simp [hp] at hm2
  · intro hp
    simp [hp, List.mem_append]

/-!
## Claims about the argument vector
-/

/-- C4 (counterexample): the guard on the optional tokens is JS truthiness,
not presence.  With `options = { size: "A4", pause: 0 }` the `pause` key is
present (its value is not `undefined`), yet the argument vector contains no
`--pause=<value>` token (the value coerces to `"0"`), because `0` is falsy. -/
theorem claim4_counterexample :
    (ConvOptions.mk (.str "A4") (.num 0)).pause.isUndef = false ∧
      ("--pause=" ++ (JsVal.num 0).toStr) ∉
        argsServerJs cfg0 tmpDir0 (ConvOptions.mk (.str "A4") (.num 0)) ∧
      ("--pause=" ++ (JsVal.num 0).toStr) ∉
        argsPart000 cfg0 tmpDir0 (ConvOptions.mk (.str "A4") (.num 0)) := by
  refine ⟨by decide, by decide, by decide⟩

/-- C4 (amended): the argument vector contains the `--size=<value>` token iff
`options.size` is present with a truthy value, and the `--pause=<value>` token
iff `options.pause` is present with a truthy value; in particular with
`options = { size: "A4", pause: 2 }` both tokens appear and with
`options = {}` neither appears. -/
theorem claim4_size_pause_truthy :
    (∀ o : ConvOptions,
        (("--size=" ++ o.size.toStr) ∈ argsServerJs cfg0 tmpDir0 o ↔
          o.size.truthy = true) ∧
        (("--pause=" ++ o.pause.toStr) ∈ argsServerJs cfg0 tmpDir0 o ↔
          o.pause.truthy = true) ∧
        (("--size=" ++ o.size.toStr) ∈ argsPart000 cfg0 tmpDir0 o ↔
          o.size.truthy = true) ∧
        (("--pause=" ++ o.pause.toStr) ∈ argsPart000 cfg0 tmpDir0 o ↔
          o.pause.truthy = true)) ∧
      "--size=A4" ∈ argsServerJs cfg0 tmpDir0 (ConvOptions.mk (.str "A4") (.num 2)) ∧
      "--pause=2" ∈ argsServerJs cfg0 tmpDir0 (ConvOptions.mk (.str "A4") (.num 2)) ∧
      noTokenHeaded "--size=" (argsServerJs cfg0 tmpDir0 {}) ∧
      noTokenHeaded "--pause=" (argsServerJs cfg0 tmpDir0 {}) := by
  refine ⟨fun o => ?_, by decide, by decide, by decide, by decide⟩
  refine ⟨?_, ?_, ?_, ?_⟩
  · rw [argsServerJs_eq_spec]; exact sizeTok_mem_iff true o
  · rw [argsServerJs_eq_spec]; exact pauseTok_mem_iff true o
  · rw [argsPart000_eq_spec]; exact sizeTok_mem_iff false o
  · rw [argsPart000_eq_spec]; exact pauseTok_mem_iff false o

/-- C6: in both variants the three positional tokens — the mode token
`"generic"`, the `file://` URI of `input.html`, the `output.pdf` path — form a
contiguous block in exactly that order, and the renderer entry-point path is
the first element of the argument vector. -/
theorem claim6_positional_order (cfg : Config) (tmpDir : String) (o : ConvOptions) :
    (argsServerJs cfg tmpDir o).head? = some cfg.decktapePath ∧
      (∃ pre post, argsServerJs cfg tmpDir o =
        pre ++ ["generic", "file://" ++ htmlPath tmpDir, pdfPath tmpDir] ++ post) ∧
      (argsPart000 cfg tmpDir o).head? = some cfg.decktapePath ∧
      (∃ pre post, argsPart000 cfg tmpDir o =
        pre ++ ["generic", "file://" ++ htmlPath tmpDir, pdfPath tmpDir] ++ post) := by
  refine ⟨rfl, ?_, rfl, ?_⟩
  · refine ⟨[cfg.decktapePath, "--chrome-path", cfg.chromePath]
      ++ cfg.chromeFlags.map (fun flag => "--chrome-arg=" ++ flag),
      ["--key=ArrowDown", "--key=ArrowRight"]
        ++ (if o.size.truthy then ["--size=" ++ o.size.toStr] else [])
        ++ (if o.pause.truthy then ["--pause=" ++ o.pause.toStr] else []), ?_⟩
    simp [argsServerJs, List.append_assoc]
  · refine ⟨[cfg.decktapePath, "--chrome-path", cfg.chromePath]
      ++ cfg.chromeFlags.map (fun flag => "--chrome-arg=" ++ flag),
      (if o.size.truthy then ["--size=" ++ o.size.toStr] else [])
        ++ (if o.pause.truthy then ["--pause=" ++ o.pause.toStr] else []), ?_⟩
    simp [argsPart000, List.append_assoc]

/-- C7 (counterexample): setting the browser-flags configuration to the empty
string is a value of the configuration string whose comma-split is `[""]`, so
the claim predicts a discrete `--chrome-arg=` token; the code instead falls
back to the default flag list (the `||` fallback also fires on `""`), and no
such token appears. -/
theorem claim7_counterexample :
    (Config.mk "/srv/app" none (some "")).chromeFlagsEnv = some "" ∧
      splitComma "" = [""] ∧
      "--chrome-arg=" ∉ argsServerJs (Config.mk "/srv/app" none (some "")) tmpDir0 {} ∧
      (Config.mk "/srv/app" none (some "")).chromeFlags =
        ["--no-sandbox", "--disable-gpu"] := by
  refine ⟨rfl, by decide, by decide, by decide⟩

/-- C7 (amended): both variants emit the configured flag list as one
`--chrome-arg=<flag>` token per element, in order, as a contiguous block; a
set, non-empty configuration string contributes exactly its comma-separated
elements, while an unset or empty configuration yields the two default flags
(`--no-sandbox`, `--disable-gpu`); at the default configuration exactly two
tokens of the vector start with `--chrome-arg=`. -/
theorem claim7_chrome_flags :
    (∀ (cfg : Config) (tmpDir : String) (o : ConvOptions),
        (∃ pre post, argsServerJs cfg tmpDir o =
          pre ++ cfg.chromeFlags.map (fun flag => "--chrome-arg=" ++ flag) ++ post) ∧
        (∃ pre post, argsPart000 cfg tmpDir o =
          pre ++ cfg.chromeFlags.map (fun flag => "--chrome-arg=" ++ flag) ++ post)) ∧
      (∀ cfg : Config, cfg.chromeFlagsEnv = none ∨ cfg.chromeFlagsEnv = some "" →
        cfg.chromeFlags = ["--no-sandbox", "--disable-gpu"]) ∧
      (∀ (cfg : Config) (s : String), cfg.chromeFlagsEnv = some s → s ≠ "" →
        cfg.chromeFlags = splitComma s) ∧
      (argsServerJs cfg0 tmpDir0 {}).countP
          (fun c => c.data.take 13 == "--chrome-arg=".data) = 2 := by
  refine ⟨fun cfg tmpDir o => ⟨?_, ?_⟩, fun cfg h => ?_, fun cfg s hs hne => ?_, by decide⟩
  · refine ⟨[cfg.decktapePath, "--chrome-path", cfg.chromePath],
      ["generic", "file://" ++ htmlPath tmpDir, pdfPath tmpDir]
        ++ ["--key=ArrowDown", "--key=ArrowRight"]
        ++ (if o.size.truthy then ["--size=" ++ o.size.toStr] else [])
        ++ (if o.pause.truthy then ["--pause=" ++ o.pause.toStr] else []), ?_⟩
    simp [argsServerJs, List.append_assoc]
  · refine ⟨[cfg.decktapePath, "--chrome-path", cfg.chromePath],
      ["generic", "file://" ++ htmlPath tmpDir, pdfPath tmpDir]
        ++ (if o.size.truthy then ["--size=" ++ o.size.toStr] else [])
        ++ (if o.pause.truthy then ["--pause=" ++ o.pause.toStr] else []), ?_⟩
    simp [argsPart000, List.append_assoc]
  · rcases h with h | h <;> simp [Config.chromeFlags, envOr, h] <;> decide
  · simp [Config.chromeFlags, envOr, hs, hne]

/-- C7 witness: the default-flag conclusion at an unset configuration and the
pass-through conclusion at a set, non-empty configuration. -/
theorem claim7_witness :
    cfg0.chromeFlags = ["--no-sandbox", "--disable-gpu"] ∧
      (Config.mk "/srv/app" none (some "--a,--b")).chromeFlags =
        splitComma "--a,--b" := by
  exact ⟨claim7_chrome_flags.2.1 cfg0 (Or.inl rfl),
    claim7_chrome_flags.2.2.1 (Config.mk "/srv/app" none (some "--a,--b")) "--a,--b"
      rfl (by decide)⟩

/-- C9: refinement of the two handler variants into one configurable builder.
Each variant's argument vector is the corresponding instantiation of
`specUnifiedArgs`, and the two vectors coincide except that the `src/server.js`
variant inserts the two fixed navigation-key tokens. -/
theorem claim9_variants_refinement (cfg : Config) (tmpDir : String) (o : ConvOptions) :
    argsServerJs cfg tmpDir o = specUnifiedArgs true cfg tmpDir o ∧
      argsPart000 cfg tmpDir o = specUnifiedArgs false cfg tmpDir o ∧
      ∃ pre post,
        argsServerJs cfg tmpDir o = pre ++ ["--key=ArrowDown", "--key=ArrowRight"] ++ post ∧
        argsPart000 cfg tmpDir o = pre ++ post := by
  refine ⟨argsServerJs_eq_spec cfg tmpDir o, argsPart000_eq_spec cfg tmpDir o,
    [cfg.decktapePath, "--chrome-path", cfg.chromePath]
      ++ cfg.chromeFlags.map (fun flag => "--chrome-arg=" ++ flag)
      ++ ["generic", "file://" ++ htmlPath tmpDir, pdfPath tmpDir],
    (if o.size.truthy then ["--size=" ++ o.size.toStr] else [])
      ++ (if o.pause.truthy then ["--pause=" ++ o.pause.toStr] else []), ?_, ?_⟩
  · simp [argsServerJs, List.append_assoc]
  · simp [argsPart000, List.append_assoc]

/-!
## Claims about the request lifecycle
-/

/-- C2: whenever the working directory was created, the handler's execution
attempts its recursive removal, on every exit path: success, non-zero exit,
unreadable output file, staging exceptions caught by the outer handler, and a
renderer that failed to start (where the `'close'` event still runs the
`finally` cleanup). -/
theorem claim2_cleanup_on_every_path (variant : Bool) (cfg : Config) (body : ReqBody)
    (env : FsEnv)
    (h : (handleConvert variant cfg body env).dirCreated.isSome = true) :
    (handleConvert variant cfg body env).cleanedUp = true := by
  obtain ⟨mk, wf, sp, rf⟩ := env
  cases hb : body.html.truthy
  · simp [handleConvert, hb] at h
  · cases mk with
    | error e => simp [handleConvert, hb] at h
    | ok d =>
        cases wf with
        | error e => simp [handleConvert, hb]
        | ok u =>
            cases u
            cases sp with
            | startError m => simp [handleConvert, hb]
            | exited code outB errB =>
                by_cases hc : code = some 0
                · cases rf with
                  | error e => simp [handleConvert, hb, hc]
                  | ok bytes => simp [handleConvert, hb, hc]
                · simp [handleConvert, hb, hc]

/-- C2 witness: the cleanup conclusion at a concrete successful conversion. -/
theorem claim2_witness :
    (handleConvert true cfg0 ⟨.str "<p>hi</p>", {}⟩
        ⟨.ok tmpDir0, .ok (), .exited (some 0) "" "", .ok [37, 80, 68, 70]⟩).cleanedUp =
      true :=
  claim2_cleanup_on_every_path true cfg0 ⟨.str "<p>hi</p>", {}⟩
    ⟨.ok tmpDir0, .ok (), .exited (some 0) "" "", .ok [37, 80, 68, 70]⟩ rfl

/-- C3: a request whose `html` is absent (`undefined`) or the empty string is
answered with the 400 validation error and produces no side effects: no
directory is created, no file is written, no process is spawned. -/
theorem claim3_validation_no_side_effects (variant : Bool) (cfg : Config)
    (body : ReqBody) (env : FsEnv)
    (h : body.html = JsVal.undef ∨ body.html = JsVal.str "") :
    (handleConvert variant cfg body env).response =
        some (.badRequest "HTML content is required") ∧
      (handleConvert variant cfg body env).statusSet = some 400 ∧
      (handleConvert variant cfg body env).dirCreated = none ∧
      (handleConvert variant cfg body env).fileWritten = false ∧
      (handleConvert variant cfg body env).stagedContent = none ∧
      (handleConvert variant cfg body env).spawnedArgs = none := by
  have hb : body.html.truthy = false := by
    rcases h with h | h <;> rw [h] <;> rfl
  refine ⟨?_, ?_, ?_, ?_, ?_, ?_⟩ <;> simp [handleConvert, hb]

/-- C3 witness: the validation conclusions at a concrete empty-`html` request. -/
theorem claim3_witness :
    (handleConvert true cfg0 ⟨.str "", {}⟩
        ⟨.ok tmpDir0, .ok (), .exited (some 0) "" "", .ok []⟩).response =
        some (.badRequest "HTML content is required") ∧
      (handleConvert true cfg0 ⟨.str "", {}⟩
        ⟨.ok tmpDir0, .ok (), .exited (some 0) "" "", .ok []⟩).dirCreated = none :=
  ⟨(claim3_validation_no_side_effects true cfg0 ⟨.str "", {}⟩
      ⟨.ok tmpDir0, .ok (), .exited (some 0) "" "", .ok []⟩ (Or.inr rfl)).1,
    (claim3_validation_no_side_effects true cfg0 ⟨.str "", {}⟩
      ⟨.ok tmpDir0, .ok (), .exited (some 0) "" "", .ok []⟩ (Or.inr rfl)).2.2.1⟩

/-- C1 (code bug): on a non-zero renderer exit the rejection carries the
intended failure message `Decktape failed: <stderr, falling back to stdout>`,
and the `.catch` callback calls `res.status(500)`, but building the JSON body
throws a `ReferenceError` (its `stdout`/`stderr` shorthand properties are
bound only inside the promise executor), so no error response is produced.
Evaluated at exit code 1 with both buffer configurations. -/
theorem claim1_nonzero_exit_no_error_response :
    (handleConvert true cfg0 ⟨.str "<p>hi</p>", {}⟩
        ⟨.ok tmpDir0, .ok (), .exited (some 1) "outtext" "errtext", .ok []⟩).rejectedError =
        some "Decktape failed: errtext" ∧
      (handleConvert true cfg0 ⟨.str "<p>hi</p>", {}⟩
        ⟨.ok tmpDir0, .ok (), .exited (some 1) "outtext" "errtext", .ok []⟩).statusSet =
        some 500 ∧
      (handleConvert true cfg0 ⟨.str "<p>hi</p>", {}⟩
        ⟨.ok tmpDir0, .ok (), .exited (some 1) "outtext" "errtext", .ok []⟩).refErrorThrown =
        true ∧
      (handleConvert true cfg0 ⟨.str "<p>hi</p>", {}⟩
        ⟨.ok tmpDir0, .ok (), .exited (some 1) "outtext" "errtext", .ok []⟩).response =
        none ∧
      (handleConvert true cfg0 ⟨.str "<p>hi</p>", {}⟩
        ⟨.ok tmpDir0, .ok (), .exited (some 1) "outtext" "", .ok []⟩).rejectedError =
        some "Decktape failed: outtext" ∧
      (handleConvert true cfg0 ⟨.str "<p>hi</p>", {}⟩
        ⟨.ok tmpDir0, .ok (), .exited (some 1) "outtext" "", .ok []⟩).response = none := by
  refine ⟨rfl, rfl, rfl, rfl, rfl, rfl⟩

/-- C5 (code bug): with exit code 0 and a readable `output.pdf` the handler
responds with exactly the file bytes and the two fixed headers; with exit
code 0 and an unreadable `output.pdf` the claim demands an internal-error
response, but the code produces none (the rejection's `.catch` callback
throws the out-of-scope `ReferenceError`). -/
theorem claim5_success_and_read_failure :
    (handleConvert true cfg0 ⟨.str "<p>hi</p>", {}⟩
        ⟨.ok tmpDir0, .ok (), .exited (some 0) "" "", .ok [37, 80, 68, 70]⟩).response =
        some (.pdf "application/pdf" "attachment; filename=presentation.pdf"
          [37, 80, 68, 70]) ∧
      (handleConvert true cfg0 ⟨.str "<p>hi</p>", {}⟩
        ⟨.ok tmpDir0, .ok (), .exited (some 0) "" "",
          .error "ENOENT: no such file"⟩).response = none ∧
      (handleConvert true cfg0 ⟨.str "<p>hi</p>", {}⟩
        ⟨.ok tmpDir0, .ok (), .exited (some 0) "" "",
          .error "ENOENT: no such file"⟩).refErrorThrown = true ∧
      (handleConvert true cfg0 ⟨.str "<p>hi</p>", {}⟩
        ⟨.ok tmpDir0, .ok (), .exited (some 0) "" "",
          .error "ENOENT: no such file"⟩).rejectedError =
        some "ENOENT: no such file" := by
  refine ⟨rfl, rfl, rfl, rfl⟩

/-- C8: once a request reaches process execution, its event trace starts with
validation, staging and the spawn, and continues with one of four suffixes, in
each of which the `'close'` event precedes any read of `output.pdf`, any read
precedes any response, and cleanup follows the response on the success path —
so no response is produced and no output file is read before the process has
terminated. -/
theorem claim8_sequencing (variant : Bool) (cfg : Config) (body : ReqBody)
    (env : FsEnv)
    (h : (handleConvert variant cfg body env).spawnedArgs.isSome = true) :
    ∃ rest, (handleConvert variant cfg body env).trace =
        [Ev.validateEv, Ev.mkdtempEv, Ev.writeFileEv, Ev.spawnEv] ++ rest ∧
      (rest = [Ev.closeEv, Ev.readFileEv, Ev.respondEv, Ev.cleanupEv] ∨
        rest = [Ev.closeEv, Ev.readFileEv, Ev.cleanupEv, Ev.catchEv] ∨
        rest = [Ev.closeEv, Ev.cleanupEv, Ev.catchEv] ∨
        rest = [Ev.errorEv, Ev.closeEv, Ev.cleanupEv, Ev.catchEv]) := by
  obtain ⟨mk, wf, sp, rf⟩ := env
  cases hb : body.html.truthy
  · simp [handleConvert, hb] at h
  · cases mk with
    | error e => simp [handleConvert, hb] at h
    | ok d =>
        cases wf with
        | error e => simp [handleConvert, hb] at h
        | ok u =>
            cases u
            cases sp with
            | startError m =>
                exact ⟨[Ev.errorEv, Ev.closeEv, Ev.cleanupEv, Ev.catchEv],
                  by simp [handleConvert, hb], by simp⟩
            | exited code outB errB =>
                by_cases hc : code = some 0
                · cases rf with
                  | error e =>
                      exact ⟨[Ev.closeEv, Ev.readFileEv, Ev.cleanupEv, Ev.catchEv],
                        by simp [handleConvert, hb, hc], by simp⟩
                  | ok bytes =>
                      exact ⟨[Ev.closeEv, Ev.readFileEv, Ev.respondEv, Ev.cleanupEv],
                        by simp [handleConvert, hb, hc], by simp⟩
                · exact ⟨[Ev.closeEv, Ev.cleanupEv, Ev.catchEv],
                    by simp [handleConvert, hb, hc], by simp⟩

/-- C8 witness: the sequencing conclusion at a concrete successful request. -/
theorem claim8_witness :
    ∃ rest, (handleConvert true cfg0 ⟨.str "<p>hi</p>", {}⟩
        ⟨.ok tmpDir0, .ok (), .exited (some 0) "" "", .ok [37, 80, 68, 70]⟩).trace =
        [Ev.validateEv, Ev.mkdtempEv, Ev.writeFileEv, Ev.spawnEv] ++ rest ∧
      (rest = [Ev.closeEv, Ev.readFileEv, Ev.respondEv, Ev.cleanupEv] ∨
        rest = [Ev.closeEv, Ev.readFileEv, Ev.cleanupEv, Ev.catchEv] ∨
        rest = [Ev.closeEv, Ev.cleanupEv, Ev.catchEv] ∨
        rest = [Ev.errorEv, Ev.closeEv, Ev.cleanupEv, Ev.catchEv]) :=
  claim8_sequencing true cfg0 ⟨.str "<p>hi</p>", {}⟩
    ⟨.ok tmpDir0, .ok (), .exited (some 0) "" "", .ok [37, 80, 68, 70]⟩ rfl

/-- C10: validation tests only JavaScript truthiness of `html`.  Any truthy
value — including non-strings such as a non-zero number or a non-empty array —
passes validation: the handler does not produce the 400 validation response,
creates the working directory (when `mkdtemp` succeeds) and stages the value
as `input.html` (when the write succeeds).  Every falsy value — absent, empty
string, `0`, `false`, `null` — is rejected with the validation error and no
side effects.  The listed example values classify as stated. -/
theorem claim10_truthiness_validation (variant : Bool) (cfg : Config) (h : JsVal)
    (opts : ConvOptions) (env : FsEnv) :
    (h.truthy = true →
      (handleConvert variant cfg ⟨h, opts⟩ env).response ≠
          some (.badRequest "HTML content is required") ∧
        (handleConvert variant cfg ⟨h, opts⟩ env).statusSet ≠ some 400 ∧
        (∀ d, env.mkdtempResult = .ok d →
          (handleConvert variant cfg ⟨h, opts⟩ env).dirCreated = some d) ∧
        (∀ d, env.mkdtempResult = .ok d → env.writeFileResult = .ok () →
          (handleConvert variant cfg ⟨h, opts⟩ env).stagedContent = some h)) ∧
      (h.truthy = false →
        (handleConvert variant cfg ⟨h, opts⟩ env).response =
            some (.badRequest "HTML content is required") ∧
          (handleConvert variant cfg ⟨h, opts⟩ env).dirCreated = none ∧
          (handleConvert variant cfg ⟨h, opts⟩ env).fileWritten = false ∧
          (handleConvert variant cfg ⟨h, opts⟩ env).spawnedArgs = none) ∧
      (JsVal.num 7).truthy = true ∧
      (JsVal.arr [JsVal.num 1]).truthy = true ∧
      (JsVal.num 0).truthy = false ∧
      (JsVal.boolv false).truthy = false ∧
      JsVal.nullv.truthy = false ∧
      (JsVal.str "").truthy = false ∧
      JsVal.undef.truthy = false := by
  obtain ⟨mk, wf, sp, rf⟩ := env
  refine ⟨fun hb => ?_, fun hb => ?_, rfl, rfl, rfl, rfl, rfl, rfl, rfl⟩
  · refine ⟨?_, ?_, fun d hd => ?_, fun d hd hw => ?_⟩
    · cases mk with
      | error e => simp [handleConvert, hb]
      | ok d =>
          cases wf with
          | error e => simp [handleConvert, hb]
          | ok u =>
              cases u
              cases sp with
              | startError m => simp [handleConvert, hb]
              | exited code outB errB =>
                  by_cases hc : code = some 0
                  · cases rf with
                    | error e => simp [handleConvert, hb, hc]
                    | ok bytes => simp [handleConvert, hb, hc]
                  · simp [handleConvert, hb, hc]
    · cases mk with
      | error e => simp [handleConvert, hb]
      | ok d =>
          cases wf with
          | error e => simp [handleConvert, hb]
          | ok u =>
              cases u
              cases sp with
              | startError m => simp [handleConvert, hb]
              | exited code outB errB =>
                  by_cases hc : code = some 0
                  · cases rf with
                    | error e => simp [handleConvert, hb, hc]
                    | ok bytes => simp [handleConvert, hb, hc]
                  · simp [handleConvert, hb, hc]
    · cases hd
      cases wf with
      | error e => simp [handleConvert, hb]
      | ok u =>
          cases u
          cases sp with
          | startError m => simp [handleConvert, hb]
          | exited code outB errB =>
              by_cases hc : code = some 0
              · cases rf with
                | error e => simp [handleConvert, hb, hc]
                | ok bytes => simp [handleConvert, hb, hc]
              · simp [handleConvert, hb, hc]
    · cases hd
      cases hw
      cases sp with
      | startError m => simp [handleConvert, hb]
      | exited code outB errB =>
          by_cases hc : code = some 0
          · cases rf with
            | error e => simp [handleConvert, hb, hc]
            | ok bytes => simp [handleConvert, hb, hc]
          · simp [handleConvert, hb, hc]
  · refine ⟨?_, ?_, ?_, ?_⟩ <;> simp [handleConvert, hb]

/-- C10 witness: a truthy non-string (`7`) passes validation and is staged; a
falsy value (`0`) is rejected with no directory created. -/
theorem claim10_witness :
    ((handleConvert true cfg0 ⟨.num 7, {}⟩
        ⟨.ok tmpDir0, .ok (), .exited (some 0) "" "", .ok []⟩).statusSet ≠ some 400) ∧
      (handleConvert true cfg0 ⟨.num 7, {}⟩
        ⟨.ok tmpDir0, .ok (), .exited (some 0) "" "", .ok []⟩).stagedContent =
        some (.num 7) ∧
      (handleConvert true cfg0 ⟨.num 0, {}⟩
        ⟨.ok tmpDir0, .ok (), .exited (some 0) "" "", .ok []⟩).response =
        some (.badRequest "HTML content is required") ∧
      (handleConvert true cfg0 ⟨.num 0, {}⟩
        ⟨.ok tmpDir0, .ok (), .exited (some 0) "" "", .ok []⟩).dirCreated = none :=
  ⟨((claim10_truthiness_validation true cfg0 (.num 7) {}
        ⟨.ok tmpDir0, .ok (), .exited (some 0) "" "", .ok []⟩).1 rfl).2.1,
    ((claim10_truthiness_validation true cfg0 (.num 7) {}
        ⟨.ok tmpDir0, .ok (), .exited (some 0) "" "", .ok []⟩).1 rfl).2.2.2 tmpDir0
      rfl rfl,
    ((claim10_truthiness_validation true cfg0 (.num 0) {}
        ⟨.ok tmpDir0, .ok (), .exited (some 0) "" "", .ok []⟩).2.1 rfl).1,
    ((claim10_truthiness_validation true cfg0 (.num 0) {}
        ⟨.ok tmpDir0, .ok (), .exited (some 0) "" "", .ok []⟩).2.1 rfl).2.1⟩
